import Mathlib

/-!
Shallow embedding of the collab-memory-backend thread/post/profile model.

The document store is modelled as in-memory lists of documents together with a
fresh-identifier counter; Mongo ObjectIds are natural numbers.  Concept
operations (`ThreadingConcept`, `PostingConcept`, `ProfilingConcept`) and the
route-level orchestration (`Routes`) are translated from the TypeScript
source; operations that the routes call but whose bodies are not part of the
given sources are modelled from the specification and marked as such in their
doc comments.  Throwing is modelled with `Except`; a route returns its
resulting state together with the `Except` outcome, so that mutations
performed before a throw are visible in the returned state.
-/

namespace CollabMem

/-- Object identifiers of the document store, modelled as natural numbers. -/
abbrev ObjectId := Nat

/-- Modelled from the spec: the external DocumentStore contract.  `deleteOne`
removes the first document matching the filter and is a no-op when nothing
matches. -/
def deleteFirst {α : Type} (p : α → Bool) : List α → List α
  | [] => []
  | d :: ds => if p d then ds else d :: deleteFirst p ds

/-- Modelled from the spec: the external DocumentStore contract.  `updateOne` /
`partialUpdateOne` rewrite the first document matching the filter and are a
no-op when nothing matches. -/
def updateFirst {α : Type} (p : α → Bool) (g : α → α) : List α → List α
  | [] => []
  | d :: ds => if p d then g d :: ds else d :: updateFirst p g ds

/-- `ThreadDoc` from src/server/concepts/threading.ts: creator, title, an
ordered member list and an ordered content (post id) list, plus the stored
`_id`. -/
structure ThreadDoc where
  _id : ObjectId
  creator : ObjectId
  title : String
  members : List ObjectId
  content : List ObjectId
  deriving Repr, DecidableEq

/-- `PostDoc` from src/server/concepts/posting.ts as described by the spec:
author, string content and the owning thread id (options omitted, no claim
mentions them). -/
structure PostDoc where
  _id : ObjectId
  author : ObjectId
  content : String
  thread : ObjectId
  deriving Repr, DecidableEq

/-- `ProfileDoc` from src/server/concepts/profiling.ts: keyed by user and
question, holding the selected choices. -/
structure ProfileDoc where
  _id : ObjectId
  user : ObjectId
  question : String
  selectedChoices : List String
  deriving Repr, DecidableEq

/-- Error taxonomy of the repository: `NotFoundError`, `NotAllowedError`
(src/server/concepts/errors.ts) and the plain `Error` thrown by validation
code. -/
inductive AppError where
  | notFound (msg : String)
  | notAllowed (msg : String)
  | generic (msg : String)
  deriving Repr, DecidableEq

/-- State of the Threading concept's collection. -/
structure ThreadingState where
  threads : List ThreadDoc
  nextId : Nat
  deriving Repr, DecidableEq

/-- State of the Posting concept's collection. -/
structure PostingState where
  posts : List PostDoc
  nextId : Nat
  deriving Repr, DecidableEq

/-- State of the Profiling concept's collection. -/
structure ProfilingState where
  profiles : List ProfileDoc
  nextId : Nat
  deriving Repr, DecidableEq

/-- `readOne({_id})` on the thread collection. -/
def findThread (s : ThreadingState) (id : ObjectId) : Option ThreadDoc :=
  s.threads.find? (fun d => d._id == id)

/-- `readOne({_id})` on the post collection. -/
def findPost (s : PostingState) (id : ObjectId) : Option PostDoc :=
  s.posts.find? (fun d => d._id == id)

/-- `readOne({user, question})` on the profile collection. -/
def findProfile (s : ProfilingState) (u : ObjectId) (q : String) : Option ProfileDoc :=
  s.profiles.find? (fun d => d.user == u && d.question == q)

/-- The fixed profiling question, duplicated in routes.ts and in the unnamed
profiling variant. -/
def profilingQuestion : String := "What are your goals in Fam.ly?"

/-- The fixed enumerated option set, duplicated in routes.ts and in the
unnamed profiling variant. -/
def profilingOptions : List String :=
  ["Learn family history", "Connect more often", "Learn others\x27 interests",
   "Learn about identity"]

namespace Threading

/-- `createThread` from src/server/concepts/threading.ts: copies the argument
arrays (`[...origContent]`, `[...origMembers]` — value copies), inserts the
document with a fresh id, and reads the created document back.  The source
performs no validation of the title. -/
def createThread (s : ThreadingState) (creator : ObjectId) (title : String)
    (origContent origMembers : List ObjectId) :
    ThreadingState × String × Option ThreadDoc :=
  let content := origContent
  let members := origMembers
  let doc : ThreadDoc := ⟨s.nextId, creator, title, members, content⟩
  let s1 : ThreadingState := ⟨s.threads ++ [doc], s.nextId + 1⟩
  (s1, "Thread successfully created!", findThread s1 s.nextId)

/-- `editThreadTitle` from src/server/concepts/threading.ts: the body runs
`partialUpdateOne({ thread }, { title })`.  `ThreadDoc` has no `thread` field,
so under BSON matching a filter `{thread: v}` matches a document exactly when
`v` is null/undefined (a missing field compares as null); a concrete ObjectId
matches no document.  The first parameter mirrors the source's ignored `_id`
argument; the route layer passes no third argument, i.e. `none`. -/
def editThreadTitle (s : ThreadingState) (_id : ObjectId) (title : String)
    (thread : Option ObjectId) : ThreadingState × String :=
  ({ s with
      threads := updateFirst (fun _ => thread.isNone)
        (fun d => { d with title := title }) s.threads },
   "Thread title successfully updated!")

/-- `deleteThread` from src/server/concepts/threading.ts: `deleteOne({_id})`
followed by an unconditional success message. -/
def deleteThread (s : ThreadingState) (id : ObjectId) : ThreadingState × String :=
  (⟨deleteFirst (fun d => d._id == id) s.threads, s.nextId⟩,
   "Thread deleted successfully!")

/-- `assertCreatorIsUser` from src/server/concepts/threading.ts: reads the
thread, throws `NotFoundError` when absent, throws `ThreadCreatorNotMatchError`
(a `NotAllowedError`) when the creator differs from the user, and otherwise
returns without touching the store. -/
def assertCreatorIsUser (s : ThreadingState) (id u : ObjectId) :
    Except AppError Unit :=
  match findThread s id with
  | none => .error (.notFound ("Thread " ++ toString id ++ " does not exist!"))
  | some t =>
    if t.creator == u then .ok ()
    else .error (.notAllowed
      (toString u ++ " is not the author of post " ++ toString id ++ "!"))

/-- Modelled from the spec: `getThreadContent(id) → Thread` is called by the
routes but its body is not among the given sources (threading.ts's
`getThreadPosts` is a different, unused function).  Per the spec it returns
the thread and fails with `NotFoundError` if no thread with that id exists. -/
def getThreadContent (s : ThreadingState) (id : ObjectId) :
    Except AppError ThreadDoc :=
  match findThread s id with
  | some t => .ok t
  | none => .error (.notFound ("Thread " ++ toString id ++ " does not exist!"))

/-- Modelled from the spec: `joinThread(id, user)` is called by the routes but
its body is not among the given sources.  Per the spec it appends `user` to
`members` if not already present (idempotent) and fails with `NotFoundError`
if the thread is missing. -/
def joinThread (s : ThreadingState) (id u : ObjectId) :
    Except AppError (ThreadingState × String) :=
  match findThread s id with
  | none => .error (.notFound ("Thread " ++ toString id ++ " does not exist!"))
  | some t =>
    if u ∈ t.members then .ok (s, "Joined thread!")
    else .ok
      ({ s with
          threads := updateFirst (fun d => d._id == id)
            (fun d => { d with members := d.members ++ [u] }) s.threads },
       "Joined thread!")

/-- Modelled from the spec: `leaveThread(id, user)` is called by the routes but
its body is not among the given sources.  Per the spec it removes `user` from
`members` if present, preserving the order of the remaining elements, and is a
no-op (not an error) when the user is absent; thread lookup mirrors
`joinThread`. -/
def leaveThread (s : ThreadingState) (id u : ObjectId) :
    Except AppError (ThreadingState × String) :=
  match findThread s id with
  | none => .error (.notFound ("Thread " ++ toString id ++ " does not exist!"))
  | some t =>
    if u ∈ t.members then .ok
      ({ s with
          threads := updateFirst (fun d => d._id == id)
            (fun d => { d with members := d.members.filter (fun m => m != u) })
            s.threads },
       "Left thread!")
    else .ok (s, "Left thread!")

/-- Modelled from the spec: the internal content-list maintenance operation
(`addToThread` at the call sites): idempotent append of a post id to the
thread's `content`; a no-op when the thread is missing. -/
def addToThread (s : ThreadingState) (threadId postId : ObjectId) :
    ThreadingState :=
  { s with
      threads := updateFirst (fun d => d._id == threadId)
        (fun d =>
          if postId ∈ d.content then d
          else { d with content := d.content ++ [postId] }) s.threads }

/-- Modelled from the spec: the internal content-list maintenance operation
(`removeFromThread` at the call sites): idempotent removal of a post id from
the thread's `content`, preserving the order of the remaining elements; a
no-op when the thread is missing. -/
def removeFromThread (s : ThreadingState) (threadId postId : ObjectId) :
    ThreadingState :=
  { s with
      threads := updateFirst (fun d => d._id == threadId)
        (fun d => { d with content := d.content.filter (fun c => c != postId) })
        s.threads }

end Threading

namespace Posting

/-- Modelled from the spec: the Posting concept's body is not among the given
sources.  `getPostById` reads the post by id, returning null when absent (the
route checks the result against null). -/
def getPostById (s : PostingState) (id : ObjectId) : Option PostDoc :=
  findPost s id

/-- Modelled from the spec: `delete(id) → {msg}` removes the post document
(`deleteOne({_id})`); like the Threading delete it reports success
unconditionally. -/
def delete (s : PostingState) (id : ObjectId) : PostingState × String :=
  (⟨deleteFirst (fun d => d._id == id) s.posts, s.nextId⟩,
   "Post deleted successfully!")

/-- Modelled from the spec: `assertAuthorIsUser(id, user)` fails with
`NotFoundError` / `NotAllowedError` analogous to Threading's creator check. -/
def assertAuthorIsUser (s : PostingState) (id u : ObjectId) :
    Except AppError Unit :=
  match findPost s id with
  | none => .error (.notFound ("Post " ++ toString id ++ " does not exist!"))
  | some p =>
    if p.author == u then .ok ()
    else .error (.notAllowed
      (toString u ++ " is not the author of post " ++ toString id ++ "!"))

end Posting

namespace Profiling

/-- `ask` from src/server/concepts/profiling.ts: upsert keyed by
`(user, question)` — update the existing record's `selectedChoices` when one
exists, create a new record otherwise.  No validation of the choices is
performed at this layer. -/
def ask (s : ProfilingState) (user : ObjectId) (question : String)
    (selected : List String) : ProfilingState × String :=
  match findProfile s user question with
  | some p =>
    ({ s with
        profiles := updateFirst (fun d => d._id == p._id)
          (fun d => { d with selectedChoices := selected }) s.profiles },
     "Profile updated successfully!")
  | none =>
    (⟨s.profiles ++ [⟨s.nextId, user, question, selected⟩], s.nextId + 1⟩,
     "Profile updated successfully!")

/-- `updateProfile` from src/server/concepts/profiling.ts: reads the record
keyed by `(user, question)`, throws `ProfileNotFoundError` when none exists,
and otherwise updates its `selectedChoices`.  No validation, no creation. -/
def updateProfile (s : ProfilingState) (user : ObjectId) (question : String)
    (responses : List String) : Except AppError (ProfilingState × String) :=
  match findProfile s user question with
  | none => .error (.notFound
      ("Profile entry for user " ++ toString user ++ " and question "
        ++ question ++ " not found!"))
  | some p => .ok
      ({ s with
          profiles := updateFirst (fun d => d._id == p._id)
            (fun d => { d with selectedChoices := responses }) s.profiles },
       "Profile updated successfully!")

end Profiling

namespace ProfilingVariant

/-- `ask` from src/unnamed/part_000 (the unnamed profiling variant): returns
early with no effect when the choice list is absent or empty, rejects any
choice outside the fixed option set, and otherwise upserts the record keyed by
the fixed question. -/
def ask (s : ProfilingState) (user : ObjectId)
    (selectedChoices : Option (List String)) :
    Except AppError (ProfilingState × Option String) :=
  match selectedChoices with
  | none => .ok (s, none)
  | some cs =>
    if cs.isEmpty then .ok (s, none)
    else
      let invalid := cs.filter (fun c => !(profilingOptions.contains c))
      if invalid.length > 0 then
        .error (.generic ("Invalid choices: " ++ String.intercalate ", " invalid))
      else
        match findProfile s user profilingQuestion with
        | some p => .ok
            ({ s with
                profiles := updateFirst (fun d => d._id == p._id)
                  (fun d => { d with selectedChoices := cs }) s.profiles },
             some "Profile updated successfully!")
        | none => .ok
            (⟨s.profiles ++ [⟨s.nextId, user, profilingQuestion, cs⟩],
              s.nextId + 1⟩,
             some "Profile updated successfully!")

/-- `updateProfile` from src/unnamed/part_000: delegates to `ask`. -/
def updateProfile (s : ProfilingState) (user : ObjectId)
    (selectedChoices : List String) :
    Except AppError (ProfilingState × Option String) :=
  ask s user (some selectedChoices)

end ProfilingVariant

/-- Combined application state seen by the thread/post routes. -/
structure AppState where
  threading : ThreadingState
  posting : PostingState
  deriving Repr, DecidableEq

/-- The cascading post deletion loop of `Routes.deleteThread`: a fold of
`Posting.delete` over the thread's content list. -/
def deletePosts (ps : PostingState) (ids : List ObjectId) : PostingState :=
  ids.foldl (fun acc pid => (Posting.delete acc pid).1) ps

namespace Routes

/-- `Routes.deletePost` from src/server/routes.ts: read the post by id; when
present, check author authorization, remove the post id from its thread's
content, then delete the post; when absent, report that the post could not be
found.  The session is represented by the authenticated user id.  The
resulting state is returned together with the outcome, so a throw leaves the
mutations performed up to that point visible. -/
def deletePost (s : AppState) (sessionUser id : ObjectId) :
    AppState × Except AppError String :=
  match Posting.getPostById s.posting id with
  | some post =>
    match Posting.assertAuthorIsUser s.posting id sessionUser with
    | .error e => (s, .error e)
    | .ok _ =>
      let th := Threading.removeFromThread s.threading post.thread id
      let pr := Posting.delete s.posting id
      (⟨th, pr.1⟩, .ok pr.2)
  | none => (s, .ok "Unable to find post to delete!")

/-- `Routes.deleteThread` from src/server/routes.ts: read the thread's content,
check creator authorization, delete every post listed in the content, then
delete the thread document. -/
def deleteThread (s : AppState) (sessionUser id : ObjectId) :
    AppState × Except AppError String :=
  match Threading.getThreadContent s.threading id with
  | .error e => (s, .error e)
  | .ok t =>
    match Threading.assertCreatorIsUser s.threading id sessionUser with
    | .error e => (s, .error e)
    | .ok _ =>
      let pr := deletePosts s.posting t.content
      let tr := Threading.deleteThread s.threading id
      (⟨tr.1, pr⟩, .ok tr.2)

/-- `Routes.editThreadTitle` from src/server/routes.ts: check creator
authorization, then call the concept's `editThreadTitle` with the thread id
and the new title (the concept's third parameter receives no value, i.e.
undefined). -/
def editThreadTitle (s : AppState) (sessionUser id : ObjectId)
    (title : String) : AppState × Except AppError String :=
  match Threading.assertCreatorIsUser s.threading id sessionUser with
  | .error e => (s, .error e)
  | .ok _ =>
    let tr := Threading.editThreadTitle s.threading id title none
    ({ s with threading := tr.1 }, .ok tr.2)

/-- `Routes.updateProfile` from src/server/routes.ts: validate the selected
choices against the fixed option set, throwing on any invalid choice, then
call the Profiling concept's `updateProfile` with the fixed question. -/
def updateProfile (s : ProfilingState) (sessionUser : ObjectId)
    (selectedChoices : List String) : ProfilingState × Except AppError String :=
  let invalid := selectedChoices.filter (fun c => !(profilingOptions.contains c))
  if invalid.length > 0 then
    (s, .error (.generic ("Invalid choices: " ++ String.intercalate ", " invalid)))
  else
    match Profiling.updateProfile s sessionUser profilingQuestion selectedChoices with
    | .error e => (s, .error e)
    | .ok r => (r.1, .ok r.2)

end Routes

/-- A two-thread store, both threads created by user 7. -/
def twoThreadState : ThreadingState :=
  ⟨[⟨1, 7, "a", [], []⟩, ⟨2, 7, "b", [], []⟩], 3⟩

/-- Application state wrapping `twoThreadState` with an empty post store. -/
def twoThreadApp : AppState := ⟨twoThreadState, ⟨[], 0⟩⟩

/-- Heap of JS arrays: the caller's argument arrays and the stored copies are
references (indices) into this heap, making aliasing and later in-place
mutation observable, as needed for the copy-semantics claim about
`createThread`. -/
structure ArrHeap where
  arrays : List (List ObjectId)
  deriving Repr, DecidableEq

/-- Dereference an array (out-of-range reads give the empty array). -/
def ArrHeap.read (h : ArrHeap) (r : Nat) : List ObjectId := h.arrays.getD r []

/-- Allocate a fresh array holding `v`, returning the new heap and the fresh
reference. -/
def ArrHeap.alloc (h : ArrHeap) (v : List ObjectId) : ArrHeap × Nat :=
  (⟨h.arrays ++ [v]⟩, h.arrays.length)

/-- In-place mutation of the array behind reference `r`. -/
def ArrHeap.write (h : ArrHeap) (r : Nat) (v : List ObjectId) : ArrHeap :=
  ⟨h.arrays.set r v⟩

/-- Reference-level thread document: the stored document holds references to
its own arrays. -/
structure ThreadDocRef where
  _id : ObjectId
  creator : ObjectId
  title : String
  membersRef : Nat
  contentRef : Nat
  deriving Repr, DecidableEq

/-- `createThread` from src/server/concepts/threading.ts observed at the
reference level: the spreads `[...origContent]` and `[...origMembers]`
allocate fresh arrays holding the same elements (content first, members
second, as in the source), and the stored document holds the fresh
references, not the caller's. -/
def createThreadRef (h : ArrHeap) (nid creator : ObjectId) (title : String)
    (origContentRef origMembersRef : Nat) : ArrHeap × ThreadDocRef :=
  let a1 := h.alloc (h.read origContentRef)
  let a2 := a1.1.alloc (a1.1.read origMembersRef)
  (a2.1, ⟨nid, creator, title, a2.2, a1.2⟩)

/-- Generic store lemma: deleting the first match yields a sublist. -/
theorem deleteFirst_sublist {α : Type} (p : α → Bool) (l : List α) :
    List.Sublist (deleteFirst p l) l := by
  induction l with
  | nil => exact List.Sublist.refl _
  | cons d ds ih =>
    by_cases h : p d
    · simp only [deleteFirst, if_pos h]
      exact List.sublist_cons_self d ds
    · simpa [deleteFirst, h] using ih.cons₂ d

/-- Generic store lemma: when no document matches, `deleteOne` is a no-op. -/
theorem deleteFirst_eq_self {α : Type} (p : α → Bool) (l : List α)
    (h : ∀ a ∈ l, ¬ p a = true) : deleteFirst p l = l := by
  induction l with
  | nil => rfl
  | cons d ds ih =>
    have hd : ¬ p d = true := h d (List.mem_cons_self d ds)
    simp only [deleteFirst, if_neg hd]
    rw [ih (fun a ha => h a (List.mem_cons_of_mem d ha))]

/-- Generic store lemma: a search failing before a deletion still fails after
it. -/
theorem find?_deleteFirst_none {α : Type} (p q : α → Bool) (l : List α)
    (h : l.find? q = none) : (deleteFirst p l).find? q = none := by
  rw [List.find?_eq_none] at h ⊢
  exact fun a ha => h a ((deleteFirst_sublist p l).subset ha)

/-- Generic store lemma: with unique keys, deleting by a key makes lookups of
that key fail. -/
theorem find?_deleteFirst_key {α : Type} (f : α → Nat) (x : Nat) (l : List α)
    (hn : (l.map f).Nodup) :
    (deleteFirst (fun d => f d == x) l).find? (fun d => f d == x) = none := by
  induction l with
  | nil => rfl
  | cons d ds ih =>
    rw [List.map_cons, List.nodup_cons] at hn
    by_cases h : (f d == x) = true
    · simp only [deleteFirst, if_pos h]
      rw [List.find?_eq_none]
      intro a ha
      have hfd : f d = x := by simpa using h
      have : f a ≠ f d := fun he => hn.1 (he ▸ List.mem_map_of_mem f ha)
      simpa [hfd] using fun he => this (by simpa [hfd] using he)
    · simp only [deleteFirst, if_neg h]
      have hx : List.find? (fun d => f d == x) (d :: deleteFirst (fun d => f d == x) ds)
          = List.find? (fun d => f d == x) (deleteFirst (fun d => f d == x) ds) :=
        List.find?_cons_of_neg _ h
      rw [hx]
      exact ih hn.2

/-- Generic store lemma: deletion preserves key uniqueness. -/
theorem nodup_map_deleteFirst {α : Type} (f : α → Nat) (p : α → Bool)
    (l : List α) (hn : (l.map f).Nodup) :
    ((deleteFirst p l).map f).Nodup :=
  hn.sublist ((deleteFirst_sublist p l).map f)

/-- Generic store lemma: updating the first match through a
filter-preserving function rewrites exactly the looked-up document. -/
theorem find?_updateFirst_same {α : Type} (p : α → Bool) (g : α → α)
    (l : List α) (hg : ∀ a, p a = true → p (g a) = true) :
    (updateFirst p g l).find? p = (l.find? p).map g := by
  induction l with
  | nil => rfl
  | cons d ds ih =>
    by_cases h : p d
    · simp only [updateFirst, if_pos h]
      rw [List.find?_cons_of_pos _ (hg d h), List.find?_cons_of_pos _ h]
      rfl
    · simp only [updateFirst, if_neg h]
      rw [List.find?_cons_of_neg _ h, List.find?_cons_of_neg _ h]
      exact ih

/-- Generic store lemma: with unique keys, updating by the key of the first
document matching a predicate rewrites that document in place. -/
theorem find?_updateFirst_by_key {α : Type} (f : α → Nat) (P : α → Bool)
    (g : α → α) (l : List α) (p : α) (hf : l.find? P = some p)
    (hg : P (g p) = true) (hn : (l.map f).Nodup) :
    (updateFirst (fun d => f d == f p) g l).find? P = some (g p) := by
  induction l with
  | nil => simp at hf
  | cons d ds ih =>
    rw [List.map_cons, List.nodup_cons] at hn
    by_cases h : P d
    · have hdp : d = p := by
        rw [List.find?_cons_of_pos _ h] at hf
        exact Option.some.inj hf
      subst hdp
      simp only [updateFirst, beq_self_eq_true, if_pos]
      exact List.find?_cons_of_pos _ hg
    · rw [List.find?_cons_of_neg _ h] at hf
      have hmem : p ∈ ds := List.mem_of_find?_eq_some hf
      have hne : (f d == f p) = false := by
        simp only [beq_eq_false_iff_ne, ne_eq]
        exact fun he => hn.1 (he ▸ List.mem_map_of_mem f hmem)
      simp only [updateFirst, hne, Bool.false_eq_true, if_neg, if_false]
      rw [List.find?_cons_of_neg _ h]
      exact ih hf hn.2

/-- C5: for every identifier `id`, `getThreadContent(id)` returns the thread
whose identifier is `id` when it exists, and fails with `NotFoundError` when
no thread with that id exists. -/
theorem getThreadContent_spec (s : ThreadingState) (id : ObjectId) :
    (∀ t, findThread s id = some t → Threading.getThreadContent s id = .ok t)
    ∧ (findThread s id = none →
        Threading.getThreadContent s id
          = .error (.notFound ("Thread " ++ toString id ++ " does not exist!"))) := by
  constructor
  · intro t ht
    simp [Threading.getThreadContent, ht]
  · intro h
    simp [Threading.getThreadContent, h]

/-- C5 witness: lookup of an existing thread succeeds and lookup in an empty
store fails with `NotFoundError`. -/
theorem getThreadContent_spec_witness :
    Threading.getThreadContent twoThreadState 2 = .ok ⟨2, 7, "b", [], []⟩
    ∧ Threading.getThreadContent (⟨[], 0⟩ : ThreadingState) 5
        = .error (.notFound ("Thread " ++ toString 5 ++ " does not exist!")) :=
  ⟨(getThreadContent_spec twoThreadState 2).1 _ rfl,
   (getThreadContent_spec ⟨[], 0⟩ 5).2 rfl⟩

/-- C7: `assertCreatorIsUser(id, user)` fails with `NotFoundError` when no
thread with identifier `id` exists, fails with `NotAllowedError` when the
thread exists but its creator differs from `user`, and returns normally when
the user is the creator; the operation only reads the store. -/
theorem assertCreatorIsUser_spec (s : ThreadingState) (id u : ObjectId) :
    (findThread s id = none →
        Threading.assertCreatorIsUser s id u
          = .error (.notFound ("Thread " ++ toString id ++ " does not exist!")))
    ∧ (∀ t, findThread s id = some t →
        (t.creator ≠ u →
          Threading.assertCreatorIsUser s id u
            = .error (.notAllowed
                (toString u ++ " is not the author of post " ++ toString id ++ "!")))
        ∧ (t.creator = u → Threading.assertCreatorIsUser s id u = .ok ())) := by
  refine ⟨fun h => ?_, fun t ht => ⟨fun hne => ?_, fun he => ?_⟩⟩
  · simp [Threading.assertCreatorIsUser, h]
  · simp [Threading.assertCreatorIsUser, ht, hne]
  · simp [Threading.assertCreatorIsUser, ht, he]

/-- C7 witness: the three outcomes of `assertCreatorIsUser` at concrete
inputs. -/
theorem assertCreatorIsUser_spec_witness :
    Threading.assertCreatorIsUser twoThreadState 2 7 = .ok ()
    ∧ Threading.assertCreatorIsUser twoThreadState 2 9
        = .error (.notAllowed
            (toString 9 ++ " is not the author of post " ++ toString 2 ++ "!"))
    ∧ Threading.assertCreatorIsUser (⟨[], 0⟩ : ThreadingState) 5 7
        = .error (.notFound ("Thread " ++ toString 5 ++ " does not exist!")) :=
  ⟨((assertCreatorIsUser_spec twoThreadState 2 7).2 _ rfl).2 rfl,
   ((assertCreatorIsUser_spec twoThreadState 2 9).2 _ rfl).1 (by decide),
   (assertCreatorIsUser_spec ⟨[], 0⟩ 5 7).1 rfl⟩

/-- C6 counterexample: `createThread` performs no title validation — with an
empty title on an empty store it still creates the thread document and reports
success, instead of failing with a `ValidationError`. -/
theorem createThread_empty_title_cex :
    (Threading.createThread (⟨[], 0⟩ : ThreadingState) 7 "" [] []).1.threads
        = [⟨0, 7, "", [], []⟩]
    ∧ (Threading.createThread (⟨[], 0⟩ : ThreadingState) 7 "" [] []).2.1
        = "Thread successfully created!" :=
  ⟨rfl, rfl⟩

/-- C6 amended: `createThread` with an empty title does not fail; it appends a
thread document with the empty title to the store and reports success. -/
theorem createThread_no_title_validation (s : ThreadingState)
    (creator : ObjectId) (c m : List ObjectId) :
    (Threading.createThread s creator "" c m).1.threads
        = s.threads ++ [⟨s.nextId, creator, "", m, c⟩]
    ∧ (Threading.createThread s creator "" c m).2.1
        = "Thread successfully created!" :=
  ⟨rfl, rfl⟩

/-- C10: the concept-level `deleteThread(id)` returns the success message
"Thread deleted successfully!" even when no thread with identifier `id`
exists; deleting a missing thread leaves the store unchanged and repeating the
deletion yields the same result. -/
theorem deleteThread_missing_is_noop (s : ThreadingState) (id : ObjectId) :
    (Threading.deleteThread s id).2 = "Thread deleted successfully!"
    ∧ (findThread s id = none →
        (Threading.deleteThread s id).1 = s
        ∧ Threading.deleteThread (Threading.deleteThread s id).1 id
            = Threading.deleteThread s id) := by
  refine ⟨rfl, fun h => ?_⟩
  have h1 : deleteFirst (fun d => d._id == id) s.threads = s.threads :=
    deleteFirst_eq_self _ _ (List.find?_eq_none.mp h)
  have h2 : (Threading.deleteThread s id).1 = s := by
    obtain ⟨th, ni⟩ := s
    simp only [Threading.deleteThread] at h1 ⊢
    rw [h1]
  exact ⟨h2, by rw [h2]⟩

/-- C10 witness: deleting a thread from the empty store succeeds, changes
nothing and is repeatable. -/
theorem deleteThread_missing_is_noop_witness :
    (Threading.deleteThread (⟨[], 0⟩ : ThreadingState) 1).1 = ⟨[], 0⟩
    ∧ Threading.deleteThread (Threading.deleteThread (⟨[], 0⟩ : ThreadingState) 1).1 1
        = Threading.deleteThread (⟨[], 0⟩ : ThreadingState) 1 :=
  (deleteThread_missing_is_noop ⟨[], 0⟩ 1).2 rfl

/-- C2: for every existing thread and user, membership changes are
idempotent — joining twice has no additional effect beyond the first join and
leaves the user in `members` exactly once (given the spec invariant that
duplicates do not accumulate), leaving when not a member is a no-op rather
than an error, and joining a missing thread fails with `NotFoundError`. -/
theorem membership_idempotent (s : ThreadingState) (id u : ObjectId) :
    (∀ t, findThread s id = some t →
      ∃ s1, Threading.joinThread s id u = .ok (s1, "Joined thread!")
        ∧ Threading.joinThread s1 id u = .ok (s1, "Joined thread!")
        ∧ (t.members.count u ≤ 1 →
            ∃ t1, findThread s1 id = some t1 ∧ t1.members.count u = 1)
        ∧ (u ∉ t.members →
            Threading.leaveThread s id u = .ok (s, "Left thread!")))
    ∧ (findThread s id = none →
        Threading.joinThread s id u
          = .error (.notFound ("Thread " ++ toString id ++ " does not exist!"))) := by
  constructor
  · intro t ht
    by_cases hm : u ∈ t.members
    · refine ⟨s, ?_, ?_, ?_, ?_⟩
      · simp [Threading.joinThread, ht, hm]
      · simp [Threading.joinThread, ht, hm]
      · intro hle
        refine ⟨t, ht, Nat.le_antisymm hle ?_⟩
        exact List.count_pos_iff.mpr hm
      · intro hn
        exact absurd hm hn
    · have hup : findThread
          ({ s with
              threads := updateFirst (fun d => d._id == id)
                (fun d => { d with members := d.members ++ [u] }) s.threads })
          id = some { t with members := t.members ++ [u] } := by
        show (updateFirst (fun d => d._id == id)
            (fun d => { d with members := d.members ++ [u] }) s.threads).find?
            (fun d => d._id == id) = some { t with members := t.members ++ [u] }
        rw [find?_updateFirst_same (fun d => d._id == id)
            (fun d => { d with members := d.members ++ [u] }) s.threads
            (fun a ha => ha)]
        rw [show s.threads.find? (fun d => d._id == id) = some t from ht]
        rfl
      refine ⟨{ s with
          threads := updateFirst (fun d => d._id == id)
            (fun d => { d with members := d.members ++ [u] }) s.threads },
        ?_, ?_, ?_, ?_⟩
      · simp [Threading.joinThread, ht, hm]
      · rw [Threading.joinThread, hup]
        simp
      · intro _
        refine ⟨_, hup, ?_⟩
        simp [List.count_append, List.count_eq_zero_of_not_mem hm]
      · intro _
        simp [Threading.leaveThread, ht, hm]
  · intro h
    simp [Threading.joinThread, h]

/-- C2 witness: joining thread 2 as user 9 (not yet a member) twice has no
additional effect, the user then appears exactly once, leaving beforehand is a
no-op, and joining a thread in the empty store is `NotFoundError`. -/
theorem membership_idempotent_witness :
    (∃ s1, Threading.joinThread twoThreadState 2 9 = .ok (s1, "Joined thread!")
      ∧ Threading.joinThread s1 2 9 = .ok (s1, "Joined thread!")
      ∧ (∃ t1, findThread s1 2 = some t1 ∧ t1.members.count 9 = 1)
      ∧ Threading.leaveThread twoThreadState 2 9 = .ok (twoThreadState, "Left thread!"))
    ∧ Threading.joinThread (⟨[], 0⟩ : ThreadingState) 1 9
        = .error (.notFound ("Thread " ++ toString 1 ++ " does not exist!")) := by
  obtain ⟨s1, h1, h2, h3, h4⟩ :=
    (membership_idempotent twoThreadState 2 9).1 ⟨2, 7, "b", [], []⟩ rfl
  exact ⟨⟨s1, h1, h2, h3 (by decide), h4 (by decide)⟩,
    (membership_idempotent ⟨[], 0⟩ 1 9).2 rfl⟩

/-- C8: in the three creator/author-checked routes (deletePost, deleteThread,
editThreadTitle), any error outcome — in particular a failed authorization
check — leaves the application state unchanged: every store write happens only
after every check of the request has succeeded. -/
theorem auth_failure_mutates_nothing (s : AppState) (u id : ObjectId)
    (ti : String) :
    (∀ e, (Routes.deletePost s u id).2 = .error e
        → (Routes.deletePost s u id).1 = s)
    ∧ (∀ e, (Routes.deleteThread s u id).2 = .error e
        → (Routes.deleteThread s u id).1 = s)
    ∧ (∀ e, (Routes.editThreadTitle s u id ti).2 = .error e
        → (Routes.editThreadTitle s u id ti).1 = s) := by
  refine ⟨fun e he => ?_, fun e he => ?_, fun e he => ?_⟩
  · unfold Routes.deletePost at he ⊢
    cases hp : Posting.getPostById s.posting id with
    | none => simp [hp]
    | some post =>
      cases ha : Posting.assertAuthorIsUser s.posting id u with
      | error e2 => simp [hp, ha]
      | ok _ => simp [hp, ha] at he
  · unfold Routes.deleteThread at he ⊢
    cases hg : Threading.getThreadContent s.threading id with
    | error e2 => simp [hg]
    | ok t =>
      cases ha : Threading.assertCreatorIsUser s.threading id u with
      | error e2 => simp [hg, ha]
      | ok _ => simp [hg, ha] at he
  · unfold Routes.editThreadTitle at he ⊢
    cases ha : Threading.assertCreatorIsUser s.threading id u with
    | error e2 => simp [ha]
    | ok _ => simp [ha] at he

/-- C8 witness: a non-creator's attempt to edit a title, a delete of a thread
missing from the store, and a delete of a post whose author is someone else
all error and leave the state untouched. -/
theorem auth_failure_mutates_nothing_witness :
    (Routes.editThreadTitle twoThreadApp 9 2 "x").1 = twoThreadApp
    ∧ (Routes.deleteThread (⟨⟨[], 0⟩, ⟨[], 0⟩⟩ : AppState) 7 5).1
        = (⟨⟨[], 0⟩, ⟨[], 0⟩⟩ : AppState)
    ∧ (Routes.deletePost (⟨⟨[], 0⟩, ⟨[⟨4, 8, "hi", 1⟩], 5⟩⟩ : AppState) 9 4).1
        = (⟨⟨[], 0⟩, ⟨[⟨4, 8, "hi", 1⟩], 5⟩⟩ : AppState) :=
  ⟨(auth_failure_mutates_nothing twoThreadApp 9 2 "x").2.2 _ rfl,
   (auth_failure_mutates_nothing ⟨⟨[], 0⟩, ⟨[], 0⟩⟩ 7 5 "x").2.1 _ rfl,
   (auth_failure_mutates_nothing ⟨⟨[], 0⟩, ⟨[⟨4, 8, "hi", 1⟩], 5⟩⟩ 9 4 "x").1 _ rfl⟩

/-- C9 counterexample: the active Profiling concept's `ask` performs no
validation — an invalid choice ("bogus", not in the fixed option set) is
accepted and stored, instead of being rejected. -/
theorem profiling_ask_accepts_invalid_choice_cex :
    profilingOptions.contains "bogus" = false
    ∧ Profiling.ask (⟨[], 0⟩ : ProfilingState) 5 profilingQuestion ["bogus"]
        = (⟨[⟨0, 5, profilingQuestion, ["bogus"]⟩], 1⟩,
           "Profile updated successfully!") := by
  exact ⟨by decide, rfl⟩

/-- C9 amended: the active Profiling concept validates nothing — `ask` upserts
the record keyed by (user, question), creating it when missing and updating it
when present; the concept's `updateProfile` updates an existing record but
fails with `ProfileNotFoundError` instead of creating one when missing; choice
validation against the fixed option set happens at the route layer, whose
`updateProfile` rejects invalid choices before any mutation. -/
theorem profiling_upsert_and_route_validation (s : ProfilingState)
    (u : ObjectId) (q : String) (cs : List String) :
    (findProfile s u q = none →
        (Profiling.ask s u q cs).1.profiles
            = s.profiles ++ [⟨s.nextId, u, q, cs⟩]
        ∧ Profiling.updateProfile s u q cs
            = .error (.notFound ("Profile entry for user " ++ toString u
                ++ " and question " ++ q ++ " not found!")))
    ∧ (∀ p, findProfile s u q = some p →
        (s.profiles.map ProfileDoc._id).Nodup →
        findProfile (Profiling.ask s u q cs).1 u q
            = some { p with selectedChoices := cs }
        ∧ Profiling.updateProfile s u q cs
            = .ok ((Profiling.ask s u q cs).1, "Profile updated successfully!"))
    ∧ (∀ c, c ∈ cs → profilingOptions.contains c = false →
        (Routes.updateProfile s u cs).1 = s
        ∧ ∃ m, (Routes.updateProfile s u cs).2 = .error (.generic m)) := by
  refine ⟨fun h => ?_, fun p hp hn => ?_, fun c hc hco => ?_⟩
  · constructor
    · simp [Profiling.ask, h]
    · simp [Profiling.updateProfile, h]
  · constructor
    · have hp2 : s.profiles.find? (fun d => d.user == u && d.question == q)
          = some p := hp
      have hg := List.find?_some hp2
      have := find?_updateFirst_by_key ProfileDoc._id
        (fun d => d.user == u && d.question == q)
        (fun d => { d with selectedChoices := cs }) s.profiles p hp hg hn
      show (Profiling.ask s u q cs).1.profiles.find?
          (fun d => d.user == u && d.question == q)
          = some { p with selectedChoices := cs }
      simpa [Profiling.ask, hp] using this
    · simp [Profiling.updateProfile, Profiling.ask, hp]
  · have hmem : c ∈ cs.filter (fun c => !(profilingOptions.contains c)) :=
      List.mem_filter.mpr ⟨hc, by rw [hco]; rfl⟩
    have hlen : (cs.filter (fun c => !(profilingOptions.contains c))).length > 0 :=
      List.length_pos.mpr (List.ne_nil_of_mem hmem)
    constructor
    · simp only [Routes.updateProfile]
      rw [if_pos hlen]
    · refine ⟨"Invalid choices: " ++ String.intercalate ", "
        (cs.filter (fun c => !(profilingOptions.contains c))), ?_⟩
      simp only [Routes.updateProfile]
      rw [if_pos hlen]

/-- C9 witness: a valid choice with no existing record makes `ask` create the
record while the concept's `updateProfile` fails, and the route rejects an
invalid choice without touching the store. -/
theorem profiling_upsert_and_route_validation_witness :
    ((Profiling.ask (⟨[], 0⟩ : ProfilingState) 5 profilingQuestion
        ["Learn about identity"]).1.profiles
      = [⟨0, 5, profilingQuestion, ["Learn about identity"]⟩]
    ∧ Profiling.updateProfile (⟨[], 0⟩ : ProfilingState) 5 profilingQuestion
        ["Learn about identity"]
      = .error (.notFound ("Profile entry for user " ++ toString 5
          ++ " and question " ++ profilingQuestion ++ " not found!")))
    ∧ ((Routes.updateProfile (⟨[], 0⟩ : ProfilingState) 5 ["bogus"]).1
        = (⟨[], 0⟩ : ProfilingState)
    ∧ ∃ m, (Routes.updateProfile (⟨[], 0⟩ : ProfilingState) 5 ["bogus"]).2
        = .error (.generic m)) :=
  ⟨(profiling_upsert_and_route_validation ⟨[], 0⟩ 5 profilingQuestion
      ["Learn about identity"]).1 rfl,
   (profiling_upsert_and_route_validation ⟨[], 0⟩ 5 "q" ["bogus"]).2.2 "bogus"
      (by decide) (by decide)⟩

/-- Cascading-delete lemma: a post lookup that already fails keeps failing
after any further deletions. -/
theorem findPost_deletePosts_of_none (ps : PostingState) (ids : List ObjectId)
    (pid : ObjectId) (h : findPost ps pid = none) :
    findPost (deletePosts ps ids) pid = none := by
  induction ids generalizing ps with
  | nil => exact h
  | cons i rest ih =>
    show findPost (deletePosts (Posting.delete ps i).1 rest) pid = none
    apply ih
    show ((⟨deleteFirst (fun d => d._id == i) ps.posts, ps.nextId⟩ :
        PostingState).posts).find? (fun d => d._id == pid) = none
    exact find?_deleteFirst_none _ _ _ h

/-- Cascading-delete lemma: with unique post ids, every post whose id is in
the deleted list no longer resolves after the deletion fold. -/
theorem findPost_deletePosts_mem (ps : PostingState) (ids : List ObjectId)
    (pid : ObjectId) (hmem : pid ∈ ids)
    (hn : (ps.posts.map PostDoc._id).Nodup) :
    findPost (deletePosts ps ids) pid = none := by
  induction ids generalizing ps with
  | nil => cases hmem
  | cons i rest ih =>
    show findPost (deletePosts (Posting.delete ps i).1 rest) pid = none
    rcases List.mem_cons.mp hmem with he | hr
    · subst he
      apply findPost_deletePosts_of_none
      show ((⟨deleteFirst (fun d => d._id == pid) ps.posts, ps.nextId⟩ :
          PostingState).posts).find? (fun d => d._id == pid) = none
      exact find?_deleteFirst_key PostDoc._id pid ps.posts hn
    · exact ih _ hr (nodup_map_deleteFirst PostDoc._id _ ps.posts hn)

/-- C1: with the session user equal to the thread's creator, the DELETE
/threads orchestration succeeds after the authorization check and afterwards
none of the posts listed in the thread's content resolves by id (a repeated
route-level delete of any of them reports the post as already gone without
changing anything), and the thread itself is absent.  Ids are assumed unique,
as the store generates them. -/
theorem deleteThread_cascade (s : AppState) (id : ObjectId) (t : ThreadDoc)
    (hT : findThread s.threading id = some t)
    (hP : (s.posting.posts.map PostDoc._id).Nodup)
    (hTh : (s.threading.threads.map ThreadDoc._id).Nodup) :
    ∃ s2, Routes.deleteThread s t.creator id
        = (s2, .ok "Thread deleted successfully!")
      ∧ (∀ p, p ∈ t.content → findPost s2.posting p = none)
      ∧ (∀ v p, p ∈ t.content →
          Routes.deletePost s2 v p = (s2, .ok "Unable to find post to delete!"))
      ∧ findThread s2.threading id = none := by
  have hget : Threading.getThreadContent s.threading id = .ok t := by
    simp [Threading.getThreadContent, hT]
  have hca : Threading.assertCreatorIsUser s.threading id t.creator = .ok () := by
    simp [Threading.assertCreatorIsUser, hT]
  refine ⟨⟨(Threading.deleteThread s.threading id).1,
      deletePosts s.posting t.content⟩, ?_, ?_, ?_, ?_⟩
  · simp only [Routes.deleteThread, hget, hca]
    rfl
  · intro p hp
    exact findPost_deletePosts_mem _ _ _ hp hP
  · intro v p hp
    have h0 : findPost (deletePosts s.posting t.content) p = none :=
      findPost_deletePosts_mem _ _ _ hp hP
    simp [Routes.deletePost, Posting.getPostById, h0]
  · show findThread (Threading.deleteThread s.threading id).1 id = none
    show ((⟨deleteFirst (fun d => d._id == id) s.threading.threads,
        s.threading.nextId⟩ : ThreadingState).threads).find?
        (fun d => d._id == id) = none
    exact find?_deleteFirst_key ThreadDoc._id id s.threading.threads hTh

/-- C1 witness: a thread with content [10, 11] owned by user 7, with both
posts present; deleting the thread as user 7 removes both posts and the
thread, and re-deleting either post reports it as already gone. -/
theorem deleteThread_cascade_witness :
    ∃ s2, Routes.deleteThread
        (⟨⟨[⟨1, 7, "t", [], [10, 11]⟩], 2⟩,
          ⟨[⟨10, 7, "x", 1⟩, ⟨11, 7, "y", 1⟩], 12⟩⟩ : AppState) 7 1
        = (s2, .ok "Thread deleted successfully!")
      ∧ (∀ p, p ∈ ([10, 11] : List ObjectId) → findPost s2.posting p = none)
      ∧ (∀ v p, p ∈ ([10, 11] : List ObjectId) →
          Routes.deletePost s2 v p = (s2, .ok "Unable to find post to delete!"))
      ∧ findThread s2.threading 1 = none :=
  deleteThread_cascade
    ⟨⟨[⟨1, 7, "t", [], [10, 11]⟩], 2⟩, ⟨[⟨10, 7, "x", 1⟩, ⟨11, 7, "y", 1⟩], 12⟩⟩
    1 ⟨1, 7, "t", [], [10, 11]⟩ rfl (by decide) (by decide)

/-- Heap lemma: appending does not change reads below the old length. -/
theorem getD_append_left_of_lt {α : Type} (l l2 : List α) (d : α) (n : Nat)
    (h : n < l.length) : (l ++ l2).getD n d = l.getD n d := by
  rw [List.getD_eq_getElem?_getD, List.getD_eq_getElem?_getD,
    List.getElem?_append_left h]

/-- Heap lemma: a freshly appended cell reads back its value. -/
theorem getD_append_self {α : Type} (l : List α) (x d : α) :
    (l ++ [x]).getD l.length d = x := by
  rw [List.getD_eq_getElem?_getD, List.getElem?_append_right (Nat.le_refl _)]
  simp

/-- Heap lemma: writing one cell leaves every other cell unchanged. -/
theorem getD_set_of_ne {α : Type} (l : List α) (i j : Nat) (v d : α)
    (h : i ≠ j) : (l.set i v).getD j d = l.getD j d := by
  rw [List.getD_eq_getElem?_getD, List.getD_eq_getElem?_getD,
    List.getElem?_set_ne h]

/-- C3: `createThread` stores copies of the caller's content and members
arrays — after creation the stored arrays read back exactly the caller's
element sequences (order preserved), the stored references differ from the
caller's references, and any later in-place mutation of a pre-existing
(caller-owned) array leaves the stored arrays unchanged. -/
theorem createThread_copy_semantics (h : ArrHeap) (nid creator : ObjectId)
    (title : String) (rc rm : Nat) (hrc : rc < h.arrays.length)
    (hrm : rm < h.arrays.length) :
    ∀ h2 doc, createThreadRef h nid creator title rc rm = (h2, doc) →
      h2.read doc.contentRef = h.read rc
      ∧ h2.read doc.membersRef = h.read rm
      ∧ doc.contentRef ≠ rc ∧ doc.membersRef ≠ rm
      ∧ ∀ r v, r < h.arrays.length →
          (h2.write r v).read doc.contentRef = h.read rc
          ∧ (h2.write r v).read doc.membersRef = h.read rm := by
  intro h2 doc he
  injection he with e1 e2
  subst e1
  subst e2
  have hm2 : (⟨h.arrays ++ [h.read rc]⟩ : ArrHeap).read rm = h.read rm := by
    show (h.arrays ++ [h.read rc]).getD rm [] = h.arrays.getD rm []
    exact getD_append_left_of_lt _ _ _ _ hrm
  have hlt1 : h.arrays.length < (h.arrays ++ [h.read rc]).length := by
    simp
  have hread1 : ∀ M, ((h.arrays ++ [h.read rc]) ++ [M]).getD h.arrays.length []
      = h.read rc := by
    intro M
    rw [getD_append_left_of_lt _ _ _ _ hlt1]
    exact getD_append_self _ _ _
  have hread2 : ∀ M, ((h.arrays ++ [h.read rc]) ++ [M]).getD
      (h.arrays ++ [h.read rc]).length [] = M := fun M =>
    getD_append_self _ _ _
  refine ⟨?_, ?_, ?_, ?_, ?_⟩
  · exact hread1 _
  · show ((h.arrays ++ [h.read rc])
        ++ [(⟨h.arrays ++ [h.read rc]⟩ : ArrHeap).read rm]).getD
        (h.arrays ++ [h.read rc]).length [] = h.read rm
    rw [hread2]
    exact hm2
  · exact (Nat.ne_of_lt hrc).symm
  · show (h.arrays ++ [h.read rc]).length ≠ rm
    intro he2
    rw [← he2] at hrm
    simp at hrm
  · intro r v hr
    constructor
    · show ((((h.arrays ++ [h.read rc])
          ++ [(⟨h.arrays ++ [h.read rc]⟩ : ArrHeap).read rm]).set r v)).getD
          h.arrays.length [] = h.read rc
      rw [getD_set_of_ne _ _ _ _ _ (Nat.ne_of_lt hr)]
      exact hread1 _
    · show ((((h.arrays ++ [h.read rc])
          ++ [(⟨h.arrays ++ [h.read rc]⟩ : ArrHeap).read rm]).set r v)).getD
          (h.arrays ++ [h.read rc]).length [] = h.read rm
      have hne : r ≠ (h.arrays ++ [h.read rc]).length := by
        simp only [List.length_append, List.length_cons, List.length_nil]
        omega
      rw [getD_set_of_ne _ _ _ _ _ hne, hread2]
      exact hm2

/-- C3 witness: a heap with the caller's arrays [1, 2] (content) and [3]
(members); after creation the stored content array reads [1, 2], and
overwriting the caller's content array with [9] leaves the stored copy
untouched. -/
theorem createThread_copy_semantics_witness :
    (createThreadRef ⟨[[1, 2], [3]]⟩ 5 7 "t" 0 1).1.read
        (createThreadRef ⟨[[1, 2], [3]]⟩ 5 7 "t" 0 1).2.contentRef = [1, 2]
    ∧ (createThreadRef ⟨[[1, 2], [3]]⟩ 5 7 "t" 0 1).1.read
        (createThreadRef ⟨[[1, 2], [3]]⟩ 5 7 "t" 0 1).2.membersRef = [3]
    ∧ ((createThreadRef ⟨[[1, 2], [3]]⟩ 5 7 "t" 0 1).1.write 0 [9]).read
        (createThreadRef ⟨[[1, 2], [3]]⟩ 5 7 "t" 0 1).2.contentRef = [1, 2] := by
  obtain ⟨h1, h2, h3, h4, h5⟩ :=
    createThread_copy_semantics ⟨[[1, 2], [3]]⟩ 5 7 "t" 0 1 (by decide)
      (by decide) _ _ rfl
  exact ⟨h1, h2, (h5 0 [9] (by decide)).1⟩

/-- C4 code-bug exhibit: with two threads (ids 1 and 2, both created by
user 7), the route editing the title of thread 2 reports success but rewrites
the title of thread 1 and leaves thread 2 unchanged — the concept's
`partialUpdateOne` filters on a `thread` field that `ThreadDoc` does not have,
ignoring the `_id` parameter, so the undefined filter value matches the first
document in the collection. -/
theorem editThreadTitle_updates_wrong_document :
    (Routes.editThreadTitle twoThreadApp 7 2 "new").2
        = .ok "Thread title successfully updated!"
    ∧ ((Routes.editThreadTitle twoThreadApp 7 2 "new").1.threading.threads.map
        ThreadDoc.title) = ["new", "b"] :=
  ⟨rfl, rfl⟩

end CollabMem
